import Mathlib

set_option maxRecDepth 100000

/-!
Shallow embedding of `src/vera/vera_spi.cpp` (VERA SPI interface and the SD
card protocol engine it drives, from the box16 emulator).

Bytes are modelled as `Nat` (the source uses `uint8_t`; all stored values stay
below 256 on every reachable path because every stored byte comes from a
masked or literal source).  The backing image file is modelled as a
`List Nat` of bytes; `x16size` is its length, `x16seek`/`x16read`/`x16write`
become pure slicing and splicing on the list.
-/

/-- Splice `data` into `l` starting at offset `off` (models `fseek` to `off`
followed by `fwrite` of `data`; when `off + data.length ≤ l.length` this is an
in-place overwrite). -/
def listWrite (l : List Nat) (off : Nat) (data : List Nat) : List Nat :=
  l.take off ++ data ++ l.drop (off + data.length)

/-- State of the SD-card protocol engine: the module-level statics of
`sdcard.cpp`.  `rxbuf` holds the bytes accumulated so far, so `rxbuf_idx`
of the source is `rxbuf.length`; `file = none` models `sdcard_file == nullptr`,
`some disk` models an open image whose bytes are `disk`.
`read_block_response` is the 2+512+2 = 516 byte static buffer of CMD17. -/
structure SDCard where
  selected : Bool
  rxbuf : List Nat
  lba : Nat
  last_cmd : Nat
  is_acmd : Bool
  is_idle : Bool
  is_initialized : Bool
  response : Option (List Nat)
  response_length : Nat
  response_counter : Nat
  read_block_response : List Nat
  file : Option (List Nat)
  attached : Bool
deriving Repr, DecidableEq

/-- Initial values of the statics of `sdcard.cpp` (C zero/explicit initializers). -/
def sdcard_init : SDCard :=
  { selected := false
    rxbuf := []
    lba := 0
    last_cmd := 0
    is_acmd := false
    is_idle := true
    is_initialized := false
    response := none
    response_length := 0
    response_counter := 0
    read_block_response := List.replicate 516 0
    file := none
    attached := false }

/-- Attach a backing image (`sdcard_attach` with a successfully opened file of
contents `disk`; prints and `hypercalls_update` are outside the model). -/
def sdcard_attach (disk : List Nat) (c : SDCard) : SDCard :=
  if c.attached = false then
    { c with file := some disk, attached := true, is_initialized := false }
  else c

/-- Detach the backing image (`sdcard_detach`). -/
def sdcard_detach (c : SDCard) : SDCard :=
  if c.attached = true then { c with file := none, attached := false } else c

/-- Model of `sdcard_is_attached`. -/
def sdcard_is_attached (c : SDCard) : Bool := c.file.isSome && c.attached

/-- Model of `sdcard_select`: records the flag and resets the receive cursor. -/
def sdcard_select (sel : Bool) (c : SDCard) : SDCard :=
  { c with selected := sel, rxbuf := [] }

/-- Model of `set_response_r1`. -/
def set_response_r1 (s : SDCard) : SDCard :=
  { s with response := some [if s.is_idle then 1 else 0], response_length := 1 }

/-- Model of `set_response_r2`. -/
def set_response_r2 (s : SDCard) : SDCard :=
  if s.is_initialized then
    { s with response := some [0x00, 0x00], response_length := 2 }
  else
    { s with response := some [0x1F, 0xFF], response_length := 2 }

/-- Model of `set_response_r3`. -/
def set_response_r3 (s : SDCard) : SDCard :=
  { s with response := some [0xC0, 0xFF, 0x80, 0x00], response_length := 4 }

/-- Model of `set_response_r7`. -/
def set_response_r7 (s : SDCard) : SDCard :=
  { s with response := some [1, 0x00, 0x00, 0x01, 0xAA], response_length := 5 }

/-- Big-endian 32-bit argument of a command frame:
`(rxbuf[1] << 24) | (rxbuf[2] << 16) | (rxbuf[3] << 8) | rxbuf[4]`. -/
def frame_arg (rx : List Nat) : Nat :=
  ((rx.getD 1 0) <<< 24) ||| ((rx.getD 2 0) <<< 16) ||| ((rx.getD 3 0) <<< 8) ||| rx.getD 4 0

/-- The `switch (rxbuf[0])` of `sdcard_handle`, after the command index `cmd`
has been stripped of its framing bits and possibly marked with the ACMD bit
(`0x80`).  `rx` is the completed 6-byte frame.  The source's `case` labels:
CMD0 = 0, CMD8 = 8, ACMD41 = 0x80|41 = 169, CMD13 = 13, CMD16 = 16,
CMD17 = 17, CMD24 = 24, CMD55 = 55, CMD58 = 58. -/
def sdcard_dispatch (cmd : Nat) (rx : List Nat) (s : SDCard) : SDCard :=
  if cmd = 0 then
    set_response_r1 { s with is_idle := true }
  else if cmd = 8 then
    set_response_r7 s
  else if cmd = 169 then
    set_response_r1 { s with is_idle := false, is_initialized := true }
  else if cmd = 13 then
    set_response_r2 s
  else if cmd = 16 then
    set_response_r1 s
  else if cmd = 17 then
    -- READ_SINGLE_BLOCK; `lba` here is a local shadowing the module static
    let lbaLoc := frame_arg rx
    let buf0 := (s.read_block_response.set 0 0).set 1 0xFE
    match s.file with
    | some disk =>
      if lbaLoc * 512 ≥ disk.length then
        -- the source sets `response_length = 2` here, but unconditionally
        -- overwrites it with 2+512+2 right after the if/else
        let buf := buf0.set 1 0x08
        { s with read_block_response := buf, response := some buf,
                 response_length := 2 + 512 + 2 }
      else
        let data := (disk.drop (lbaLoc * 512)).take 512
        let buf := listWrite buf0 2 data
        { s with read_block_response := buf, response := some buf,
                 response_length := 2 + 512 + 2 }
    | none => s
  else if cmd = 24 then
    set_response_r1 { s with lba := frame_arg rx }
  else if cmd = 55 then
    set_response_r1 { s with is_acmd := true }
  else if cmd = 58 then
    set_response_r3 s
  else
    set_response_r1 s

/-- Model of `sdcard_handle`: one byte exchanged with the card, returning the
card's reply byte and the new state. -/
def sdcard_handle (inbyte : Nat) (s : SDCard) : Nat × SDCard :=
  if s.selected = false ∨ s.file = none then
    (0xFF, s)
  else if s.rxbuf.length = 0 ∧ inbyte = 0xFF then
    -- send response data
    match s.response with
    | some buf =>
      let out := buf.getD s.response_counter 0
      let c := s.response_counter + 1
      if c = s.response_length then
        (out, { s with response := none, response_counter := c })
      else
        (out, { s with response_counter := c })
    | none => (0xFF, s)
  else
    let rx := s.rxbuf ++ [inbyte]
    if (rx.headD 0) &&& 0xC0 = 0x40 ∧ rx.length = 6 then
      if ¬ ((rx.headD 0) &&& 0xC0 = 0x40) then
        -- unreachable in the source as well: the enclosing condition has
        -- already established the framing bits
        (0xFF, { s with rxbuf := [], response := none })
      else
        let cmd0 := (rx.headD 0) &&& 0x3F
        let cmd := if s.is_acmd then cmd0 ||| 0x80 else cmd0
        let s1 := { s with rxbuf := [], is_acmd := false, last_cmd := cmd }
        let s2 := sdcard_dispatch cmd rx s1
        (0xFF, { s2 with response_counter := 0 })
    else if rx.length = 515 then
      let s1 := { s with rxbuf := [] }
      if s1.last_cmd = 24 ∧ rx.headD 0 = 0xFE then
        match s1.file with
        | some disk =>
          if s1.lba * 512 ≥ disk.length then
            (0xFF, s1)
          else
            (0xFF, { s1 with
                      file := some (listWrite disk (s1.lba * 512) ((rx.drop 1).take 512)) })
        | none => (0xFF, s1)
      else (0xFF, s1)
    else
      (0xFF, { s with rxbuf := rx })

/-- Concrete card state used to instantiate theorems: a two-block (1024-byte)
zero image attached and the card selected. -/
def demo_card : SDCard :=
  sdcard_select true (sdcard_attach (List.replicate 1024 0) sdcard_init)

/-- Feed a list of bytes to `sdcard_handle` one at a time, collecting the
reply bytes. -/
def sdcard_run : List Nat → SDCard → List Nat × SDCard
  | [], s => ([], s)
  | b :: rest, s =>
    let r := sdcard_handle b s
    let r2 := sdcard_run rest r.2
    (r.1 :: r2.1, r2.2)

/-- State of the serial transfer engine: the module-level statics of
`vera_spi.cpp`. -/
structure SpiState where
  ss : Bool
  busy : Bool
  autotx : Bool
  sending_byte : Nat
  received_byte : Nat
  outcounter : Int
deriving Repr, DecidableEq

/-- The whole peripheral: serial transfer engine plus card protocol engine. -/
structure Sys where
  spi : SpiState
  card : SDCard
deriving Repr, DecidableEq

/-- Model of `vera_spi_step`: advance a pending transfer by `clocks` ticks;
on completion hand the byte to the card and latch its reply. -/
def vera_spi_step (clocks : Int) (s : Sys) : Sys :=
  if s.spi.busy = true then
    let oc := s.spi.outcounter + clocks
    if oc ≥ 8 then
      if sdcard_is_attached s.card = true then
        let r := sdcard_handle s.spi.sending_byte s.card
        { spi := { s.spi with busy := false, outcounter := oc, received_byte := r.1 },
          card := r.2 }
      else
        { s with spi := { s.spi with busy := false, outcounter := oc, received_byte := 0xFF } }
    else
      { s with spi := { s.spi with outcounter := oc } }
  else s

/-- Model of `vera_spi_write`.  `clocks` is the tick delta that
`vera_spi_autostep` applies on entry (the source derives it from the global
CPU cycle counter; here it is passed explicitly). -/
def vera_spi_write (reg value : Nat) (clocks : Int) (s : Sys) : Sys :=
  let s := vera_spi_step clocks s
  if reg = 0 then
    if s.spi.ss = true ∧ s.spi.busy = false then
      { s with spi := { s.spi with sending_byte := value, busy := true, outcounter := 0 } }
    else s
  else if reg = 1 then
    let newss : Bool := value &&& 1 = 1
    let s1 :=
      if s.spi.ss ≠ newss then
        if newss = true then
          { s with spi := { s.spi with ss := newss }, card := sdcard_select newss s.card }
        else
          { s with spi := { s.spi with ss := newss } }
      else s
    { s1 with spi := { s1.spi with autotx := value &&& 4 ≠ 0 } }
  else s

/-- Model of `vera_spi_read`: returns the byte read and the new state. -/
def vera_spi_read (reg : Nat) (clocks : Int) (s : Sys) : Nat × Sys :=
  let s := vera_spi_step clocks s
  if reg = 0 then
    if s.spi.autotx = true ∧ s.spi.ss = true ∧ s.spi.busy = false then
      (s.spi.received_byte,
       { s with spi := { s.spi with sending_byte := 0xFF, busy := true, outcounter := 0 } })
    else (s.spi.received_byte, s)
  else if reg = 1 then
    ((if s.spi.busy then 128 else 0) + (if s.spi.autotx then 4 else 0) +
       (if s.spi.ss then 1 else 0), s)
  else (0, s)

/-- Model of `debug_vera_spi_read`: no time advance, no side effects. -/
def debug_vera_spi_read (reg : Nat) (s : Sys) : Nat :=
  if reg = 0 then s.spi.received_byte
  else if reg = 1 then
    (if s.spi.busy then 128 else 0) + (if s.spi.autotx then 4 else 0) +
      (if s.spi.ss then 1 else 0)
  else 0

/-- Model of `vera_spi_init`. -/
def vera_spi_init (s : Sys) : Sys :=
  { s with spi := { s.spi with ss := false, busy := false, autotx := false,
                               received_byte := 0xFF } }

/-- Concrete system state: `demo_card` behind an idle serial engine with the
chip select asserted. -/
def demo_sys : Sys :=
  { spi := { ss := true, busy := false, autotx := false, sending_byte := 0,
             received_byte := 0xFF, outcounter := 0 },
    card := demo_card }

/-- `demo_sys` with a transfer of the byte `0x40` freshly started. -/
def demo_sys_busy : Sys :=
  { demo_sys with
    spi := { demo_sys.spi with sending_byte := 0x40, busy := true, outcounter := 0 } }

/-- Run `vera_spi_step` over a list of tick deltas, counting completion
events (a step that finds `busy` set and reaches the 8-tick threshold). -/
def spi_run : List Int → Sys → Sys × Nat
  | [], s => (s, 0)
  | d :: rest, s =>
    let c := if s.spi.busy = true ∧ s.spi.outcounter + d ≥ 8 then 1 else 0
    let r := spi_run rest (vera_spi_step d s)
    (r.1, c + r.2)

/-! ### Helper lemmas -/

theorem take_append_length (l₁ l₂ : List Nat) (n : Nat) (h : n = l₁.length) :
    (l₁ ++ l₂).take n = l₁ := by
  subst h; exact List.take_left l₁ l₂

theorem drop_append_length (l₁ l₂ : List Nat) (n : Nat) (h : n = l₁.length) :
    (l₁ ++ l₂).drop n = l₂ := by
  subst h; exact List.drop_left l₁ l₂

theorem listWrite_length (l data : List Nat) (off : Nat) (h : off + data.length ≤ l.length) :
    (listWrite l off data).length = l.length := by
  unfold listWrite
  simp only [List.length_append, List.length_take, List.length_drop]
  omega

theorem listWrite_readback (l data : List Nat) (off : Nat) (h : off + data.length ≤ l.length) :
    ((listWrite l off data).drop off).take data.length = data := by
  unfold listWrite
  rw [List.append_assoc,
      drop_append_length _ _ _ (by simp only [List.length_take]; omega),
      take_append_length _ _ _ rfl]

theorem headD_append_single (l : List Nat) (a b : Nat) (h : l ≠ []) :
    (l ++ [a]).headD b = l.headD b := by
  cases l with
  | nil => exact absurd rfl h
  | cons x xs => rfl

/-! ### Single-step lemmas about `sdcard_handle` -/

theorem sdcard_handle_drain_none (s : SDCard) (d : List Nat)
    (hsel : s.selected = true) (hf : s.file = some d) (hrx : s.rxbuf = [])
    (hresp : s.response = none) :
    sdcard_handle 0xFF s = (0xFF, s) := by
  simp [sdcard_handle, hsel, hf, hrx, hresp]

theorem sdcard_run_drain_none (n : Nat) (s : SDCard) (d : List Nat)
    (hsel : s.selected = true) (hf : s.file = some d) (hrx : s.rxbuf = [])
    (hresp : s.response = none) :
    sdcard_run (List.replicate n 0xFF) s = (List.replicate n 0xFF, s) := by
  induction n with
  | zero => simp [sdcard_run]
  | succ k ih =>
    simp [List.replicate_succ, sdcard_run,
          sdcard_handle_drain_none s d hsel hf hrx hresp, ih]

theorem sdcard_handle_accum (b : Nat) (s : SDCard) (d : List Nat)
    (hsel : s.selected = true) (hf : s.file = some d)
    (hdrain : ¬(s.rxbuf.length = 0 ∧ b = 0xFF))
    (hcmd : ¬(((s.rxbuf ++ [b]).headD 0) &&& 0xC0 = 0x40 ∧ s.rxbuf.length + 1 = 6))
    (hdata : s.rxbuf.length + 1 ≠ 515) :
    sdcard_handle b s = (0xFF, { s with rxbuf := s.rxbuf ++ [b] }) := by
  simp only [sdcard_handle, hsel, hf]
  rw [if_neg (by simp), if_neg hdrain]
  simp only [List.length_append, List.length_cons, List.length_nil, Nat.zero_add] at hcmd hdata ⊢
  rw [if_neg hcmd, if_neg hdata]

theorem sdcard_run_append (xs ys : List Nat) (s : SDCard) :
    sdcard_run (xs ++ ys) s =
      ((sdcard_run xs s).1 ++ (sdcard_run ys (sdcard_run xs s).2).1,
       (sdcard_run ys (sdcard_run xs s).2).2) := by
  induction xs generalizing s with
  | nil => simp [sdcard_run]
  | cons b rest ih => simp [sdcard_run, ih]

theorem sdcard_run_accum (bs : List Nat) (s : SDCard) (d : List Nat)
    (hsel : s.selected = true) (hf : s.file = some d) (hne : s.rxbuf ≠ [])
    (hhead : ¬ ((s.rxbuf.headD 0) &&& 0xC0 = 0x40))
    (hlen : s.rxbuf.length + bs.length < 515) :
    sdcard_run bs s = (List.replicate bs.length 0xFF, { s with rxbuf := s.rxbuf ++ bs }) := by
  induction bs generalizing s with
  | nil => simp [sdcard_run]
  | cons b rest ih =>
    have hstep := sdcard_handle_accum b s d hsel hf
      (by intro hc; exact hne (List.length_eq_zero.mp hc.1))
      (by
        intro hc
        exact hhead (by rw [headD_append_single s.rxbuf b 0 hne] at hc; exact hc.1))
      (by simp at hlen; omega)
    have hrest := ih { s with rxbuf := s.rxbuf ++ [b] } (by simpa using hsel) (by simpa using hf)
      (by simp)
      (by
        show ¬((s.rxbuf ++ [b]).headD 0 &&& 0xC0 = 0x40)
        rw [headD_append_single s.rxbuf b 0 hne]
        exact hhead)
      (by simp at hlen ⊢; omega)
    simp [sdcard_run, hstep, hrest, List.replicate_succ]

theorem sdcard_run_cmd_frame (s : SDCard) (d : List Nat) (h b1 b2 b3 b4 c : Nat)
    (hsel : s.selected = true) (hf : s.file = some d) (hrx : s.rxbuf = [])
    (hh : h &&& 0xC0 = 0x40) :
    sdcard_run [h, b1, b2, b3, b4, c] s =
      (List.replicate 6 0xFF,
       { sdcard_dispatch (if s.is_acmd then (h &&& 0x3F) ||| 0x80 else h &&& 0x3F)
           [h, b1, b2, b3, b4, c]
           { s with rxbuf := [], is_acmd := false,
                    last_cmd := if s.is_acmd then (h &&& 0x3F) ||| 0x80 else h &&& 0x3F }
         with response_counter := 0 }) := by
  have hne : h ≠ 0xFF := by
    intro he; rw [he] at hh; exact absurd hh (by decide)
  simp [sdcard_run, sdcard_handle, hsel, hf, hrx, hne, hh]

theorem sdcard_dispatch_last_cmd (cmd : Nat) (rx : List Nat) (s : SDCard) :
    (sdcard_dispatch cmd rx s).last_cmd = s.last_cmd := by
  unfold sdcard_dispatch set_response_r1 set_response_r2 set_response_r3 set_response_r7
  dsimp only
  repeat' split
  all_goals rfl

/-! ### Lemmas about the serial transfer engine -/

theorem vera_spi_step_not_busy (d : Int) (s : Sys) (h : s.spi.busy = false) :
    vera_spi_step d s = s := by
  simp [vera_spi_step, h]

theorem vera_spi_step_no_complete (d : Int) (s : Sys) (hb : s.spi.busy = true)
    (h : ¬ s.spi.outcounter + d ≥ 8) :
    vera_spi_step d s = { s with spi := { s.spi with outcounter := s.spi.outcounter + d } } := by
  simp [vera_spi_step, hb, h]

theorem vera_spi_step_completes_busy (d : Int) (s : Sys) (hb : s.spi.busy = true)
    (h : s.spi.outcounter + d ≥ 8) :
    (vera_spi_step d s).spi.busy = false := by
  simp only [vera_spi_step, hb, if_pos, if_true]
  rw [if_pos h]
  split <;> rfl

theorem vera_spi_step_ss (d : Int) (s : Sys) : (vera_spi_step d s).spi.ss = s.spi.ss := by
  unfold vera_spi_step
  dsimp only
  repeat' split
  all_goals rfl

theorem vera_spi_step_sending (d : Int) (s : Sys) :
    (vera_spi_step d s).spi.sending_byte = s.spi.sending_byte := by
  unfold vera_spi_step
  dsimp only
  repeat' split
  all_goals rfl

theorem vera_spi_step_busy_mono (d : Int) (s : Sys) (h : (vera_spi_step d s).spi.busy = true) :
    s.spi.busy = true := by
  by_cases hb : s.spi.busy = true
  · exact hb
  · rw [vera_spi_step_not_busy d s (by simpa using hb)] at h
    exact h

theorem spi_run_not_busy (ds : List Int) (s : Sys) (h : s.spi.busy = false) :
    spi_run ds s = (s, 0) := by
  induction ds generalizing s with
  | nil => rfl
  | cons d rest ih =>
    simp [spi_run, h, vera_spi_step_not_busy d s h, ih s h]

theorem spi_run_busy (ds : List Int) : ∀ (s : Sys), s.spi.busy = true →
    s.spi.outcounter < 8 → (∀ d ∈ ds, 0 ≤ d) →
    (((spi_run ds s).1.spi.busy = true) ↔ s.spi.outcounter + ds.sum < 8) ∧
    ((spi_run ds s).2 = if 8 ≤ s.spi.outcounter + ds.sum then 1 else 0) := by
  induction ds with
  | nil =>
    intro s hb hc _
    refine ⟨by simp [spi_run, hb]; omega, ?_⟩
    simp only [spi_run, List.sum_nil, Int.add_zero]
    rw [if_neg (by omega)]
  | cons d rest ih =>
    intro s hb hc hnn
    have hsum : 0 ≤ rest.sum :=
      List.sum_nonneg (fun x hx => hnn x (List.mem_cons_of_mem d hx))
    by_cases hcomp : s.spi.outcounter + d ≥ 8
    · have hbusy' := vera_spi_step_completes_busy d s hb hcomp
      have hrun := spi_run_not_busy rest (vera_spi_step d s) hbusy'
      simp only [spi_run, hrun, List.sum_cons]
      refine ⟨by rw [hbusy']; constructor <;> intro hx <;> [exact absurd hx (by simp); omega], ?_⟩
      rw [if_pos (by constructor <;> [exact hb; exact hcomp]), if_pos (by omega)]
    · have hstep := vera_spi_step_no_complete d s hb hcomp
      have hrest := ih { s with spi := { s.spi with outcounter := s.spi.outcounter + d } }
        (by exact hb) (by simp; omega)
        (fun x hx => hnn x (List.mem_cons_of_mem d hx))
      simp only [spi_run, hstep, List.sum_cons]
      simp only at hrest
      refine ⟨by rw [hrest.1]; omega, ?_⟩
      rw [if_neg (by intro hx; exact hcomp hx.2), hrest.2]
      by_cases hfin : 8 ≤ s.spi.outcounter + d + rest.sum
      · rw [if_pos (by omega), if_pos (by omega)]
      · rw [if_neg (by omega), if_neg (by omega)]

/-- C5: with a transfer freshly started (`busy` set, tick counter 0), after any
sequence of non-negative tick deltas, `busy` holds iff fewer than 8 ticks have
accumulated; the transfer completes exactly when the accumulated ticks reach
8, never earlier, and the completion event fires exactly once — in particular
not a second time when `step` runs again with 0 additional ticks. -/
theorem c5_transfer_timing (s : Sys) (ds : List Int)
    (hb : s.spi.busy = true) (hc : s.spi.outcounter = 0)
    (hnn : ∀ d ∈ ds, 0 ≤ d) :
    (((spi_run ds s).1.spi.busy = true) ↔ ds.sum < 8) ∧
    ((spi_run ds s).2 = if 8 ≤ ds.sum then 1 else 0) := by
  have h := spi_run_busy ds s hb (by omega) hnn
  rw [hc] at h
  simpa using h

/-- Witness for C5 at a concrete state and tick sequence. -/
theorem c5_transfer_timing_witness :
    demo_sys_busy.spi.busy = true ∧ demo_sys_busy.spi.outcounter = 0 ∧
    (∀ d ∈ ([3, 0, 5, 0] : List Int), 0 ≤ d) ∧
    ((((spi_run [3, 0, 5, 0] demo_sys_busy).1.spi.busy = true) ↔
        ([3, 0, 5, 0] : List Int).sum < 8) ∧
     ((spi_run [3, 0, 5, 0] demo_sys_busy).2 =
        if 8 ≤ ([3, 0, 5, 0] : List Int).sum then 1 else 0)) :=
  ⟨rfl, rfl, by decide, c5_transfer_timing demo_sys_busy [3, 0, 5, 0] rfl rfl (by decide)⟩

/-- C9: a write to register 0 performed while the (time-advanced) engine is
still busy is silently ignored: the whole state equals what the mere time
advance produces, so `sending_byte`, the busy flag and the tick counter are
untouched by the write and nothing is queued. -/
theorem c9_write_while_busy (s : Sys) (v : Nat) (d : Int)
    (h : (vera_spi_step d s).spi.busy = true) :
    vera_spi_write 0 v d s = vera_spi_step d s ∧
    (vera_spi_write 0 v d s).spi.sending_byte = s.spi.sending_byte ∧
    (vera_spi_write 0 v d s).spi.busy = true := by
  have heq : vera_spi_write 0 v d s = vera_spi_step d s := by
    simp [vera_spi_write, h]
  exact ⟨heq, by rw [heq, vera_spi_step_sending], by rw [heq]; exact h⟩

/-- Witness for C9: a write of `0x42` three ticks into a transfer is ignored. -/
theorem c9_write_while_busy_witness :
    (vera_spi_step 3 demo_sys_busy).spi.busy = true ∧
    (vera_spi_write 0 0x42 3 demo_sys_busy = vera_spi_step 3 demo_sys_busy ∧
     (vera_spi_write 0 0x42 3 demo_sys_busy).spi.sending_byte = demo_sys_busy.spi.sending_byte ∧
     (vera_spi_write 0 0x42 3 demo_sys_busy).spi.busy = true) :=
  ⟨by decide, c9_write_while_busy demo_sys_busy 0x42 3 (by decide)⟩

/-- C2 counterexample: with three bytes of a partial frame buffered, the
register-1 write that clears chip select leaves the receive cursor at 3 — the
deselect itself does not reset it (the reset happens only on re-select). -/
theorem c2_counterexample :
    (vera_spi_write 1 0 0
        { spi := { ss := true, busy := false, autotx := false, sending_byte := 0,
                   received_byte := 0xFF, outcounter := 0 },
          card := (sdcard_run [1, 2, 3] demo_card).2 }).card.rxbuf = [1, 2, 3] := by
  decide

/-- C2 (corrected): a register-1 write that clears chip select leaves the card
protocol state — including the receive cursor — exactly as the implicit time
advance left it (`sdcard_select` is only invoked on a transition to selected);
the cursor is reset to 0 by the subsequent re-selecting write, so no partial
command or data frame survives a deselect-then-reselect cycle. -/
theorem c2_deselect_reselect (s : Sys) (v1 v2 : Nat) (d1 d2 : Int)
    (hss : s.spi.ss = true) (hv1 : v1 &&& 1 = 0) (hv2 : v2 &&& 1 = 1) :
    (vera_spi_write 1 v1 d1 s).card = (vera_spi_step d1 s).card ∧
    (vera_spi_write 1 v2 d2 (vera_spi_write 1 v1 d1 s)).card.rxbuf = [] ∧
    (vera_spi_write 1 v2 d2 (vera_spi_write 1 v1 d1 s)).card.selected = true := by
  have hv1' : v1 % 2 = 0 := by rw [← Nat.and_one_is_mod]; exact hv1
  have hv2' : v2 % 2 = 1 := by rw [← Nat.and_one_is_mod]; exact hv2
  have hss1 : (vera_spi_step d1 s).spi.ss = true := by
    rw [vera_spi_step_ss]; exact hss
  have h1 : (vera_spi_write 1 v1 d1 s).card = (vera_spi_step d1 s).card := by
    simp [vera_spi_write, hv1', hss1]
  have hssw1 : (vera_spi_write 1 v1 d1 s).spi.ss = false := by
    simp [vera_spi_write, hv1', hss1]
  have key : ∀ w : Sys, w.spi.ss = false →
      (vera_spi_write 1 v2 d2 w).card.rxbuf = [] ∧
      (vera_spi_write 1 v2 d2 w).card.selected = true := by
    intro w hw
    have hsw : (vera_spi_step d2 w).spi.ss = false := by
      rw [vera_spi_step_ss]; exact hw
    constructor <;> simp [vera_spi_write, hv2', hsw, sdcard_select]
  exact ⟨h1, (key _ hssw1).1, (key _ hssw1).2⟩

/-- Witness for C2 at a concrete deselect/reselect pair. -/
theorem c2_deselect_reselect_witness :
    demo_sys.spi.ss = true ∧ (0 : Nat) &&& 1 = 0 ∧ (1 : Nat) &&& 1 = 1 ∧
    ((vera_spi_write 1 0 0 demo_sys).card = (vera_spi_step 0 demo_sys).card ∧
     (vera_spi_write 1 1 0 (vera_spi_write 1 0 0 demo_sys)).card.rxbuf = [] ∧
     (vera_spi_write 1 1 0 (vera_spi_write 1 0 0 demo_sys)).card.selected = true) :=
  ⟨rfl, rfl, rfl, c2_deselect_reselect demo_sys 0 1 0 0 rfl rfl rfl⟩

/-- C1 (corrected): a 6-byte frame whose first byte lacks the `01` framing
bits is not recognized when the cursor reaches 6: nothing is discarded, the
pending response is untouched, the bytes stay buffered (the cursor only resets
at the 515-byte data-frame threshold), and each transfer returns `0xFF`. -/
theorem c1_bad_framing_accumulates (s : SDCard) (d : List Nat) (b0 b1 b2 b3 b4 b5 : Nat)
    (hsel : s.selected = true) (hf : s.file = some d) (hrx : s.rxbuf = [])
    (hbad : ¬ (b0 &&& 0xC0 = 0x40)) (hff : b0 ≠ 0xFF) :
    sdcard_run [b0, b1, b2, b3, b4, b5] s =
      (List.replicate 6 0xFF, { s with rxbuf := [b0, b1, b2, b3, b4, b5] }) := by
  have h1 := sdcard_handle_accum b0 s d hsel hf
    (by rw [hrx]; exact fun hc => hff hc.2)
    (by rw [hrx]; exact fun hc => hbad hc.1)
    (by rw [hrx]; simp)
  have h2 := sdcard_run_accum [b1, b2, b3, b4, b5] { s with rxbuf := s.rxbuf ++ [b0] } d
    (by simpa using hsel) (by simpa using hf)
    (by simp) (by rw [hrx] at *; exact hbad)
    (by rw [hrx]; simp)
  rw [hrx] at h1 h2
  simp only [List.nil_append] at h1 h2
  have hstep : sdcard_run [b0, b1, b2, b3, b4, b5] s
      = ((sdcard_handle b0 s).1 ::
          (sdcard_run [b1, b2, b3, b4, b5] (sdcard_handle b0 s).2).1,
         (sdcard_run [b1, b2, b3, b4, b5] (sdcard_handle b0 s).2).2) := rfl
  rw [hstep, h1]
  dsimp only
  rw [h2]
  simp

/-- Witness for C1 at a concrete malformed frame. -/
theorem c1_bad_framing_accumulates_witness :
    demo_card.selected = true ∧ demo_card.file = some (List.replicate 1024 0) ∧
    demo_card.rxbuf = [] ∧ ¬ ((0x00 : Nat) &&& 0xC0 = 0x40) ∧ (0x00 : Nat) ≠ 0xFF ∧
    sdcard_run [0x00, 1, 2, 3, 4, 5] demo_card =
      (List.replicate 6 0xFF, { demo_card with rxbuf := [0x00, 1, 2, 3, 4, 5] }) :=
  ⟨rfl, rfl, rfl, by decide, by decide,
   c1_bad_framing_accumulates demo_card (List.replicate 1024 0) 0x00 1 2 3 4 5
     rfl rfl rfl (by decide) (by decide)⟩

/-- C1 counterexample: after CMD55 leaves a pending response buffered, a
malformed 6-byte frame is fed; when the cursor reaches 6 the frame is NOT
discarded (the cursor stays at 6) and the pending response is NOT cleared,
contrary to the claim. -/
theorem c1_counterexample :
    (sdcard_run [0x77, 0, 0, 0, 0, 0, 0x00, 0, 0, 0, 0, 0] demo_card).2.rxbuf
        = [0x00, 0, 0, 0, 0, 0] ∧
    (sdcard_run [0x77, 0, 0, 0, 0, 0, 0x00, 0, 0, 0, 0, 0] demo_card).2.response
        = some [1] := by
  decide

theorem sdcard_run_cmd55_acmd41 (s : SDCard) (d : List Nat)
    (hsel : s.selected = true) (hf : s.file = some d) (hrx : s.rxbuf = [])
    (hacmd : s.is_acmd = false) :
    (sdcard_run [0x77, 0, 0, 0, 0, 0, 0x69, 0, 0, 0, 0, 0] s).2 =
      { s with rxbuf := [], is_acmd := false, last_cmd := 169, is_idle := false,
               is_initialized := true, response := some [0], response_length := 1,
               response_counter := 0 } := by
  have h55 : (sdcard_run [0x77, 0, 0, 0, 0, 0] s).2 =
      { s with rxbuf := [], is_acmd := true, last_cmd := 55,
               response := some [if s.is_idle then 1 else 0], response_length := 1,
               response_counter := 0 } := by
    rw [sdcard_run_cmd_frame s d 0x77 0 0 0 0 0 hsel hf hrx (by decide)]
    simp [hacmd, sdcard_dispatch, set_response_r1, (by decide : (0x77 : Nat) &&& 0x3F = 55)]
  have hsplit : ([0x77, 0, 0, 0, 0, 0, 0x69, 0, 0, 0, 0, 0] : List Nat)
      = [0x77, 0, 0, 0, 0, 0] ++ [0x69, 0, 0, 0, 0, 0] := rfl
  rw [hsplit, sdcard_run_append, h55]
  rw [sdcard_run_cmd_frame
        { s with rxbuf := [], is_acmd := true, last_cmd := 55,
                 response := some [if s.is_idle then 1 else 0], response_length := 1,
                 response_counter := 0 } d 0x69 0 0 0 0 0 hsel hf rfl (by decide)]
  simp [sdcard_dispatch, set_response_r1,
        (by decide : ((0x69 : Nat) &&& 0x3F) ||| 0x80 = 169)]

/-- C3 counterexample: run CMD55, CMD41 (so the card becomes initialized),
then CMD0.  CMD0 sets `is_idle` but does NOT clear `is_initialized` — the
session is not re-armed to `{idle=true, initialized=false}` as claimed. -/
theorem c3_counterexample :
    (sdcard_run [0x77, 0, 0, 0, 0, 0, 0x69, 0, 0, 0, 0, 0, 0x40, 0, 0, 0, 0, 0]
        demo_card).2.is_idle = true ∧
    (sdcard_run [0x77, 0, 0, 0, 0, 0, 0x69, 0, 0, 0, 0, 0, 0x40, 0, 0, 0, 0, 0]
        demo_card).2.is_initialized = true := by
  decide

/-- C3 (corrected): CMD0 sets `is_idle := true` but leaves `is_initialized`
unchanged (only re-attaching the image clears it); a subsequent CMD55 + CMD41
pair (dispatched as ACMD41) yields `is_idle = false` and
`is_initialized = true`. -/
theorem c3_cmd0_acmd41 (s : SDCard) (d : List Nat) (a1 a2 a3 a4 c : Nat)
    (hsel : s.selected = true) (hf : s.file = some d) (hrx : s.rxbuf = [])
    (hacmd : s.is_acmd = false) :
    ((sdcard_run [0x40, a1, a2, a3, a4, c] s).2.is_idle = true ∧
     (sdcard_run [0x40, a1, a2, a3, a4, c] s).2.is_initialized = s.is_initialized) ∧
    ((sdcard_run [0x77, 0, 0, 0, 0, 0, 0x69, 0, 0, 0, 0, 0] s).2.is_idle = false ∧
     (sdcard_run [0x77, 0, 0, 0, 0, 0, 0x69, 0, 0, 0, 0, 0] s).2.is_initialized = true) := by
  constructor
  · rw [sdcard_run_cmd_frame s d 0x40 a1 a2 a3 a4 c hsel hf hrx (by decide)]
    constructor <;>
      simp [hacmd, sdcard_dispatch, set_response_r1, (by decide : (0x40 : Nat) &&& 0x3F = 0)]
  · rw [sdcard_run_cmd55_acmd41 s d hsel hf hrx hacmd]
    exact ⟨rfl, rfl⟩

/-- Witness for C3 at the concrete demo state. -/
theorem c3_cmd0_acmd41_witness :
    demo_card.selected = true ∧ demo_card.file = some (List.replicate 1024 0) ∧
    demo_card.rxbuf = [] ∧ demo_card.is_acmd = false ∧
    (((sdcard_run [0x40, 0, 0, 0, 0, 0] demo_card).2.is_idle = true ∧
      (sdcard_run [0x40, 0, 0, 0, 0, 0] demo_card).2.is_initialized = demo_card.is_initialized) ∧
     ((sdcard_run [0x77, 0, 0, 0, 0, 0, 0x69, 0, 0, 0, 0, 0] demo_card).2.is_idle = false ∧
      (sdcard_run [0x77, 0, 0, 0, 0, 0, 0x69, 0, 0, 0, 0, 0] demo_card).2.is_initialized = true)) :=
  ⟨rfl, rfl, rfl, rfl,
   c3_cmd0_acmd41 demo_card (List.replicate 1024 0) 0 0 0 0 0 rfl rfl rfl rfl⟩

/-- C7: CMD55 sets the pending application-command flag; the next completed
command frame is dispatched with the ACMD marker bit (0x80) ORed into its
index and the flag is cleared; a third command after the CMD55+CMD41 pair is
dispatched as a plain (non-application) command, without the marker bit. -/
theorem c7_app_command_marker (s : SDCard) (d : List Nat) (h3 z1 z2 z3 z4 z5 : Nat)
    (hsel : s.selected = true) (hf : s.file = some d) (hrx : s.rxbuf = [])
    (hacmd : s.is_acmd = false) (hh3 : h3 &&& 0xC0 = 0x40) :
    (sdcard_run [0x77, 0, 0, 0, 0, 0] s).2.is_acmd = true ∧
    (sdcard_run [0x77, 0, 0, 0, 0, 0, 0x69, 0, 0, 0, 0, 0] s).2.last_cmd = 169 ∧
    (sdcard_run [0x77, 0, 0, 0, 0, 0, 0x69, 0, 0, 0, 0, 0] s).2.is_acmd = false ∧
    (sdcard_run ([0x77, 0, 0, 0, 0, 0, 0x69, 0, 0, 0, 0, 0] ++ [h3, z1, z2, z3, z4, z5])
        s).2.last_cmd = h3 &&& 0x3F ∧
    (h3 &&& 0x3F) &&& 0x80 = 0 := by
  refine ⟨?_, ?_, ?_, ?_, ?_⟩
  · rw [sdcard_run_cmd_frame s d 0x77 0 0 0 0 0 hsel hf hrx (by decide)]
    simp [hacmd, sdcard_dispatch, set_response_r1, (by decide : (0x77 : Nat) &&& 0x3F = 55)]
  · rw [sdcard_run_cmd55_acmd41 s d hsel hf hrx hacmd]
  · rw [sdcard_run_cmd55_acmd41 s d hsel hf hrx hacmd]
  · rw [sdcard_run_append, sdcard_run_cmd55_acmd41 s d hsel hf hrx hacmd]
    rw [sdcard_run_cmd_frame
          { s with rxbuf := [], is_acmd := false, last_cmd := 169, is_idle := false,
                   is_initialized := true, response := some [0], response_length := 1,
                   response_counter := 0 } d h3 z1 z2 z3 z4 z5 hsel hf rfl hh3]
    simp only [Bool.false_eq_true, if_false]
    rw [sdcard_dispatch_last_cmd]
  · rw [Nat.and_assoc]
    simp [(by decide : (0x3F : Nat) &&& 0x80 = 0)]

/-- Witness for C7 with CMD58 as the third command. -/
theorem c7_app_command_marker_witness :
    demo_card.selected = true ∧ demo_card.file = some (List.replicate 1024 0) ∧
    demo_card.rxbuf = [] ∧ demo_card.is_acmd = false ∧ (0x7A : Nat) &&& 0xC0 = 0x40 ∧
    ((sdcard_run [0x77, 0, 0, 0, 0, 0] demo_card).2.is_acmd = true ∧
     (sdcard_run [0x77, 0, 0, 0, 0, 0, 0x69, 0, 0, 0, 0, 0] demo_card).2.last_cmd = 169 ∧
     (sdcard_run [0x77, 0, 0, 0, 0, 0, 0x69, 0, 0, 0, 0, 0] demo_card).2.is_acmd = false ∧
     (sdcard_run ([0x77, 0, 0, 0, 0, 0, 0x69, 0, 0, 0, 0, 0] ++ [0x7A, 0, 0, 0, 0, 0])
         demo_card).2.last_cmd = (0x7A : Nat) &&& 0x3F ∧
     ((0x7A : Nat) &&& 0x3F) &&& 0x80 = 0) :=
  ⟨rfl, rfl, rfl, rfl, by decide,
   c7_app_command_marker demo_card (List.replicate 1024 0) 0x7A 0 0 0 0 0
     rfl rfl rfl rfl (by decide)⟩

/-- C8: after a validly framed CMD8 completes with the card selected, an image
attached and no pending application command, the six subsequent 0xFF probes
return exactly 0x01, 0x00, 0x00, 0x01, 0xAA and then 0xFF; the response is
cleared when fully drained, so every further 0xFF probe also returns 0xFF. -/
theorem c8_cmd8_response (s : SDCard) (d : List Nat) (a1 a2 a3 a4 c : Nat)
    (hsel : s.selected = true) (hf : s.file = some d) (hrx : s.rxbuf = [])
    (hacmd : s.is_acmd = false) :
    (sdcard_run ([0x48, a1, a2, a3, a4, c] ++ List.replicate 6 0xFF) s).1
      = List.replicate 6 0xFF ++ [0x01, 0x00, 0x00, 0x01, 0xAA, 0xFF] ∧
    (sdcard_run ([0x48, a1, a2, a3, a4, c] ++ List.replicate 6 0xFF) s).2.response = none ∧
    (∀ n, sdcard_run (List.replicate n 0xFF)
        (sdcard_run ([0x48, a1, a2, a3, a4, c] ++ List.replicate 6 0xFF) s).2
      = (List.replicate n 0xFF,
         (sdcard_run ([0x48, a1, a2, a3, a4, c] ++ List.replicate 6 0xFF) s).2)) := by
  have h8 := sdcard_run_cmd_frame s d 0x48 a1 a2 a3 a4 c hsel hf hrx (by decide)
  simp only [hacmd, sdcard_dispatch, set_response_r7,
             (by decide : (0x48 : Nat) &&& 0x3F = 8), if_false, Bool.false_eq_true,
             (by decide : ¬ ((8 : Nat) = 0)), (by decide : (8 : Nat) = 8),
             (by decide : ¬ ((8 : Nat) = 169)), (by decide : ¬ ((8 : Nat) = 13)),
             (by decide : ¬ ((8 : Nat) = 16)), (by decide : ¬ ((8 : Nat) = 17)),
             (by decide : ¬ ((8 : Nat) = 24)), (by decide : ¬ ((8 : Nat) = 55)),
             (by decide : ¬ ((8 : Nat) = 58)), if_true] at h8
  have hdrain : (sdcard_run (List.replicate 6 0xFF)
      { s with rxbuf := [], is_acmd := false, last_cmd := 8,
               response := some [1, 0x00, 0x00, 0x01, 0xAA], response_length := 5,
               response_counter := 0 })
      = ([0x01, 0x00, 0x00, 0x01, 0xAA, 0xFF],
         { s with rxbuf := [], is_acmd := false, last_cmd := 8,
                  response := none, response_length := 5,
                  response_counter := 5 }) := by
    simp [sdcard_run, sdcard_handle, hsel, hf, List.replicate]
  rw [sdcard_run_append, h8, hdrain]
  refine ⟨rfl, rfl, ?_⟩
  intro n
  exact sdcard_run_drain_none n _ d hsel hf rfl rfl

/-- Witness for C8 at the concrete demo state. -/
theorem c8_cmd8_response_witness :
    demo_card.selected = true ∧ demo_card.file = some (List.replicate 1024 0) ∧
    demo_card.rxbuf = [] ∧ demo_card.is_acmd = false ∧
    ((sdcard_run ([0x48, 0, 0, 0, 0x01, 0xAA] ++ List.replicate 6 0xFF) demo_card).1
       = List.replicate 6 0xFF ++ [0x01, 0x00, 0x00, 0x01, 0xAA, 0xFF] ∧
     (sdcard_run ([0x48, 0, 0, 0, 0x01, 0xAA] ++ List.replicate 6 0xFF) demo_card).2.response
       = none ∧
     (∀ n, sdcard_run (List.replicate n 0xFF)
         (sdcard_run ([0x48, 0, 0, 0, 0x01, 0xAA] ++ List.replicate 6 0xFF) demo_card).2
       = (List.replicate n 0xFF,
          (sdcard_run ([0x48, 0, 0, 0, 0x01, 0xAA] ++ List.replicate 6 0xFF) demo_card).2))) :=
  ⟨rfl, rfl, rfl, rfl,
   c8_cmd8_response demo_card (List.replicate 1024 0) 0 0 0 0x01 0xAA rfl rfl rfl rfl⟩

theorem getD_set_self (l : List Nat) (i a dv : Nat) (h : i < l.length) :
    (l.set i a).getD i dv = a := by
  simp [List.getD, List.getElem?_set_self, h]

theorem getD_set_ne (l : List Nat) (i j a dv : Nat) (h : i ≠ j) :
    (l.set i a).getD j dv = l.getD j dv := by
  simp [List.getD, List.getElem?_set_ne h]

/-- C4 counterexample: CMD17 with LBA 5 against a 1024-byte (2-block) image is
out of range; the pending response length is set to 516 = 2+512+2 (the actual
size of the data-block shape), not to 534 as the claim has it. -/
theorem c4_counterexample :
    (sdcard_run [0x51, 0, 0, 0, 5, 0] demo_card).2.response_length = 516 ∧
    ¬ ((sdcard_run [0x51, 0, 0, 0, 5, 0] demo_card).2.response_length = 534) := by
  decide

/-- C4 (corrected): for every CMD17 whose LBA satisfies `lba*512 ≥ image
size`, the pending response's second byte is the out-of-range code 0x08, and
the response length is nevertheless set to the full 516-byte (2+512+2)
data-block shape — not to 2 bytes. -/
theorem c4_cmd17_out_of_range (s : SDCard) (d : List Nat) (b1 b2 b3 b4 c : Nat)
    (hsel : s.selected = true) (hf : s.file = some d) (hrx : s.rxbuf = [])
    (hacmd : s.is_acmd = false) (hbuf : s.read_block_response.length = 516)
    (hoob : frame_arg [0x51, b1, b2, b3, b4, c] * 512 ≥ d.length) :
    (sdcard_run [0x51, b1, b2, b3, b4, c] s).2.response
        = some (sdcard_run [0x51, b1, b2, b3, b4, c] s).2.read_block_response ∧
    (sdcard_run [0x51, b1, b2, b3, b4, c] s).2.read_block_response.getD 1 0 = 0x08 ∧
    (sdcard_run [0x51, b1, b2, b3, b4, c] s).2.response_length = 516 ∧
    (sdcard_run [0x51, b1, b2, b3, b4, c] s).2.response_counter = 0 := by
  rw [sdcard_run_cmd_frame s d 0x51 b1 b2 b3 b4 c hsel hf hrx (by decide)]
  simp only [hacmd, Bool.false_eq_true, if_false, sdcard_dispatch,
             (by decide : (0x51 : Nat) &&& 0x3F = 17),
             (by decide : ¬ ((17 : Nat) = 0)), (by decide : ¬ ((17 : Nat) = 8)),
             (by decide : ¬ ((17 : Nat) = 169)), (by decide : ¬ ((17 : Nat) = 13)),
             (by decide : ¬ ((17 : Nat) = 16)), (by decide : (17 : Nat) = 17), if_true]
  simp only [hf, ge_iff_le]
  rw [if_pos hoob]
  refine ⟨rfl, ?_, by trivial, by trivial⟩
  exact getD_set_self _ 1 0x08 0 (by simp [hbuf])

/-- Witness for C4 with LBA 5 against the 1024-byte demo image. -/
theorem c4_cmd17_out_of_range_witness :
    demo_card.selected = true ∧ demo_card.file = some (List.replicate 1024 0) ∧
    demo_card.rxbuf = [] ∧ demo_card.is_acmd = false ∧
    demo_card.read_block_response.length = 516 ∧
    frame_arg [0x51, 0, 0, 0, 5, 0] * 512 ≥ (List.replicate (1024 : Nat) (0 : Nat)).length ∧
    ((sdcard_run [0x51, 0, 0, 0, 5, 0] demo_card).2.response
        = some (sdcard_run [0x51, 0, 0, 0, 5, 0] demo_card).2.read_block_response ∧
     (sdcard_run [0x51, 0, 0, 0, 5, 0] demo_card).2.read_block_response.getD 1 0 = 0x08 ∧
     (sdcard_run [0x51, 0, 0, 0, 5, 0] demo_card).2.response_length = 516 ∧
     (sdcard_run [0x51, 0, 0, 0, 5, 0] demo_card).2.response_counter = 0) :=
  ⟨rfl, rfl, rfl, rfl, by decide, by decide,
   c4_cmd17_out_of_range demo_card (List.replicate 1024 0) 0 0 0 5 0
     rfl rfl rfl rfl (by decide) (by decide)⟩

/-- C10 counterexample: the CMD17 response buffer is 516 bytes (2+512+2), not
534 as the claim describes it; position 533 does not exist in it. -/
theorem c10_counterexample :
    (sdcard_run [0x51, 0, 0, 0, 5, 0] demo_card).2.read_block_response.length = 516 ∧
    ¬ ((sdcard_run [0x51, 0, 0, 0, 5, 0] demo_card).2.read_block_response.length = 534) := by
  decide

/-- C10 (corrected): an out-of-range CMD17 writes only the first two bytes of
the 516-byte response buffer (to 0x00 and 0x08); bytes at positions 2 through
515 are unchanged from the buffer's previous contents, and that whole stale
buffer is installed as the pending response for the host to drain. -/
theorem c10_oob_read_frame_effect (s : SDCard) (d : List Nat) (b1 b2 b3 b4 c : Nat)
    (hsel : s.selected = true) (hf : s.file = some d) (hrx : s.rxbuf = [])
    (hacmd : s.is_acmd = false) (hbuf : s.read_block_response.length = 516)
    (hoob : frame_arg [0x51, b1, b2, b3, b4, c] * 512 ≥ d.length) :
    (sdcard_run [0x51, b1, b2, b3, b4, c] s).2.read_block_response.getD 0 0 = 0x00 ∧
    (sdcard_run [0x51, b1, b2, b3, b4, c] s).2.read_block_response.getD 1 0 = 0x08 ∧
    (sdcard_run [0x51, b1, b2, b3, b4, c] s).2.read_block_response.length
      = s.read_block_response.length ∧
    (∀ i, 2 ≤ i →
      (sdcard_run [0x51, b1, b2, b3, b4, c] s).2.read_block_response.getD i 0
        = s.read_block_response.getD i 0) ∧
    (sdcard_run [0x51, b1, b2, b3, b4, c] s).2.response
      = some (sdcard_run [0x51, b1, b2, b3, b4, c] s).2.read_block_response := by
  rw [sdcard_run_cmd_frame s d 0x51 b1 b2 b3 b4 c hsel hf hrx (by decide)]
  simp only [hacmd, Bool.false_eq_true, if_false, sdcard_dispatch,
             (by decide : (0x51 : Nat) &&& 0x3F = 17),
             (by decide : ¬ ((17 : Nat) = 0)), (by decide : ¬ ((17 : Nat) = 8)),
             (by decide : ¬ ((17 : Nat) = 169)), (by decide : ¬ ((17 : Nat) = 13)),
             (by decide : ¬ ((17 : Nat) = 16)), (by decide : (17 : Nat) = 17), if_true]
  simp only [hf, ge_iff_le]
  rw [if_pos hoob]
  refine ⟨?_, ?_, by simp, ?_, rfl⟩
  · rw [getD_set_ne _ 1 0 0x08 0 (by decide), getD_set_ne _ 1 0 0xFE 0 (by decide)]
    exact getD_set_self _ 0 0 0 (by simp [hbuf])
  · exact getD_set_self _ 1 0x08 0 (by simp [hbuf])
  · intro i hi
    rw [getD_set_ne _ 1 i 0x08 0 (by omega), getD_set_ne _ 1 i 0xFE 0 (by omega),
        getD_set_ne _ 0 i 0 0 (by omega)]

/-- Witness for C10 with LBA 5 against the 1024-byte demo image. -/
theorem c10_oob_read_frame_effect_witness :
    demo_card.selected = true ∧ demo_card.file = some (List.replicate 1024 0) ∧
    demo_card.rxbuf = [] ∧ demo_card.is_acmd = false ∧
    demo_card.read_block_response.length = 516 ∧
    frame_arg [0x51, 0, 0, 0, 5, 0] * 512 ≥ (List.replicate (1024 : Nat) (0 : Nat)).length ∧
    ((sdcard_run [0x51, 0, 0, 0, 5, 0] demo_card).2.read_block_response.getD 0 0 = 0x00 ∧
     (sdcard_run [0x51, 0, 0, 0, 5, 0] demo_card).2.read_block_response.getD 1 0 = 0x08 ∧
     (sdcard_run [0x51, 0, 0, 0, 5, 0] demo_card).2.read_block_response.length
       = demo_card.read_block_response.length ∧
     (∀ i, 2 ≤ i →
       (sdcard_run [0x51, 0, 0, 0, 5, 0] demo_card).2.read_block_response.getD i 0
         = demo_card.read_block_response.getD i 0) ∧
     (sdcard_run [0x51, 0, 0, 0, 5, 0] demo_card).2.response
       = some (sdcard_run [0x51, 0, 0, 0, 5, 0] demo_card).2.read_block_response) :=
  ⟨rfl, rfl, rfl, rfl, by decide, by decide,
   c10_oob_read_frame_effect demo_card (List.replicate 1024 0) 0 0 0 5 0
     rfl rfl rfl rfl (by decide) (by decide)⟩

theorem sdcard_handle_data_write (b : Nat) (s : SDCard) (d : List Nat)
    (hsel : s.selected = true) (hf : s.file = some d)
    (hlen : s.rxbuf.length = 514)
    (hhead : s.rxbuf.headD 0 = 0xFE)
    (hcmd : s.last_cmd = 24)
    (hrange : ¬ s.lba * 512 ≥ d.length) :
    sdcard_handle b s =
      (0xFF,
       { s with
         rxbuf := [],
         file := some (listWrite d (s.lba * 512) (((s.rxbuf ++ [b]).drop 1).take 512)) }) := by
  have hne : s.rxbuf ≠ [] := by
    intro h; rw [h] at hlen; exact absurd hlen (by decide)
  have hh : (s.rxbuf ++ [b]).headD 0 = 0xFE := by
    rw [headD_append_single _ _ _ hne]; exact hhead
  simp only [sdcard_handle, hsel, hf]
  rw [if_neg (by simp)]
  rw [if_neg (by simp [hlen])]
  rw [if_neg (by simp [hlen])]
  rw [if_pos (by simp [hlen])]
  rw [if_pos (show _ ∧ _ from ⟨hcmd, hh⟩)]
  rw [if_neg hrange]

theorem sdcard_run_data_frame (s : SDCard) (d payload : List Nat) (c1 c2 : Nat)
    (hsel : s.selected = true) (hf : s.file = some d) (hrx : s.rxbuf = [])
    (hcmd : s.last_cmd = 24) (hlen : payload.length = 512)
    (hrange : s.lba * 512 + 512 ≤ d.length) :
    (sdcard_run (0xFE :: (payload ++ [c1, c2])) s).2 =
      { s with rxbuf := [], file := some (listWrite d (s.lba * 512) payload) } := by
  have hfe := sdcard_handle_accum 0xFE s d hsel hf
    (by rw [hrx]; decide) (by rw [hrx]; decide) (by rw [hrx]; decide)
  have hacc := sdcard_run_accum (payload ++ [c1]) { s with rxbuf := s.rxbuf ++ [0xFE] } d
    hsel hf
    (by show s.rxbuf ++ [0xFE] ≠ []; rw [hrx]; decide)
    (by show ¬ ((s.rxbuf ++ [0xFE]).headD 0 &&& 0xC0 = 0x40); rw [hrx]; decide)
    (by show (s.rxbuf ++ [0xFE]).length + (payload ++ [c1]).length < 515
        rw [hrx]; simp [hlen])
  have hwr := sdcard_handle_data_write c2
    { s with rxbuf := (s.rxbuf ++ [0xFE]) ++ (payload ++ [c1]) } d hsel hf
    (by show ((s.rxbuf ++ [0xFE]) ++ (payload ++ [c1])).length = 514
        rw [hrx]; simp [hlen])
    (by show ((s.rxbuf ++ [0xFE]) ++ (payload ++ [c1])).headD 0 = 0xFE
        rw [hrx]; simp)
    hcmd
    (by show ¬ s.lba * 512 ≥ d.length; omega)
  have hsplit : (0xFE :: (payload ++ [c1, c2]))
      = [0xFE] ++ ((payload ++ [c1]) ++ [c2]) := by simp
  rw [hsplit, sdcard_run_append]
  have hrun_fe : sdcard_run [0xFE] s
      = ([0xFF], { s with rxbuf := s.rxbuf ++ [0xFE] }) := by
    simp [sdcard_run, hfe]
  rw [hrun_fe]
  rw [sdcard_run_append, hacc]
  have hrun_c2 : sdcard_run [c2] { s with rxbuf := (s.rxbuf ++ [0xFE]) ++ (payload ++ [c1]) }
      = ((sdcard_handle c2 { s with rxbuf := (s.rxbuf ++ [0xFE]) ++ (payload ++ [c1]) }).1 ::
          [],
         (sdcard_handle c2 { s with rxbuf := (s.rxbuf ++ [0xFE]) ++ (payload ++ [c1]) }).2) :=
    rfl
  rw [hrun_c2, hwr]
  rw [hrx]
  have htake : (((([] : List Nat) ++ [0xFE]) ++ (payload ++ [c1]) ++ [c2]).drop 1).take 512
      = payload := by
    simp only [List.nil_append, List.cons_append, List.append_assoc, List.singleton_append,
               List.drop_succ_cons, List.drop_zero]
    exact take_append_length payload [c1, c2] 512 hlen.symm
  rw [htake]

/-- C6: for an in-range LBA and any 512-byte payload, writing the block via
CMD24 followed by a 515-byte data frame with a valid 0xFE start token, then
reading the same LBA via CMD17, installs a read response whose 512 data bytes
(positions 2..513) are identical to the payload written. -/
theorem c6_write_read_roundtrip (s : SDCard) (d payload : List Nat)
    (b1 b2 b3 b4 c0 c1 c2 c3 : Nat)
    (hsel : s.selected = true) (hf : s.file = some d) (hrx : s.rxbuf = [])
    (hacmd : s.is_acmd = false) (hlen : payload.length = 512)
    (hbuf : s.read_block_response.length = 516)
    (hrange : frame_arg [0x58, b1, b2, b3, b4, c0] * 512 + 512 ≤ d.length) :
    (((sdcard_run ([0x58, b1, b2, b3, b4, c0] ++ ((0xFE :: (payload ++ [c1, c2]))
          ++ [0x51, b1, b2, b3, b4, c3])) s).2.read_block_response.drop 2).take 512
        = payload) ∧
    ((sdcard_run ([0x58, b1, b2, b3, b4, c0] ++ ((0xFE :: (payload ++ [c1, c2]))
          ++ [0x51, b1, b2, b3, b4, c3])) s).2.response
        = some (sdcard_run ([0x58, b1, b2, b3, b4, c0] ++ ((0xFE :: (payload ++ [c1, c2]))
          ++ [0x51, b1, b2, b3, b4, c3])) s).2.read_block_response) ∧
    ((sdcard_run ([0x58, b1, b2, b3, b4, c0] ++ ((0xFE :: (payload ++ [c1, c2]))
          ++ [0x51, b1, b2, b3, b4, c3])) s).2.response_length = 516) ∧
    ((sdcard_run ([0x58, b1, b2, b3, b4, c0] ++ ((0xFE :: (payload ++ [c1, c2]))
          ++ [0x51, b1, b2, b3, b4, c3])) s).2.response_counter = 0) := by
  have h24 : (sdcard_run [0x58, b1, b2, b3, b4, c0] s).2 =
      { s with rxbuf := [], is_acmd := false, last_cmd := 24,
               lba := frame_arg [0x58, b1, b2, b3, b4, c0],
               response := some [if s.is_idle then 1 else 0], response_length := 1,
               response_counter := 0 } := by
    rw [sdcard_run_cmd_frame s d 0x58 b1 b2 b3 b4 c0 hsel hf hrx (by decide)]
    simp [hacmd, sdcard_dispatch, set_response_r1, (by decide : (0x58 : Nat) &&& 0x3F = 24)]
  have hdf : (sdcard_run (0xFE :: (payload ++ [c1, c2]))
      { s with rxbuf := [], is_acmd := false, last_cmd := 24,
               lba := frame_arg [0x58, b1, b2, b3, b4, c0],
               response := some [if s.is_idle then 1 else 0], response_length := 1,
               response_counter := 0 }).2 =
      { s with rxbuf := [], is_acmd := false, last_cmd := 24,
               lba := frame_arg [0x58, b1, b2, b3, b4, c0],
               response := some [if s.is_idle then 1 else 0], response_length := 1,
               response_counter := 0,
               file := some (listWrite d (frame_arg [0x58, b1, b2, b3, b4, c0] * 512)
                              payload) } := by
    rw [sdcard_run_data_frame
          { s with rxbuf := [], is_acmd := false, last_cmd := 24,
                   lba := frame_arg [0x58, b1, b2, b3, b4, c0],
                   response := some [if s.is_idle then 1 else 0], response_length := 1,
                   response_counter := 0 } d payload c1 c2 hsel hf rfl rfl hlen hrange]
  have h17 := sdcard_run_cmd_frame
    { s with rxbuf := [], is_acmd := false, last_cmd := 24,
             lba := frame_arg [0x58, b1, b2, b3, b4, c0],
             response := some [if s.is_idle then 1 else 0], response_length := 1,
             response_counter := 0,
             file := some (listWrite d (frame_arg [0x58, b1, b2, b3, b4, c0] * 512) payload) }
    (listWrite d (frame_arg [0x58, b1, b2, b3, b4, c0] * 512) payload)
    0x51 b1 b2 b3 b4 c3 hsel rfl rfl (by decide)
  have hdlen : (listWrite d (frame_arg [0x58, b1, b2, b3, b4, c0] * 512) payload).length
      = d.length :=
    listWrite_length d payload _ (by rw [hlen]; exact hrange)
  have harg : frame_arg [0x51, b1, b2, b3, b4, c3] = frame_arg [0x58, b1, b2, b3, b4, c0] :=
    rfl
  have hnr : ¬ ((listWrite d (frame_arg [0x58, b1, b2, b3, b4, c0] * 512) payload).length
      ≤ frame_arg [0x58, b1, b2, b3, b4, c0] * 512) := by
    rw [hdlen]; omega
  have hread := listWrite_readback d payload (frame_arg [0x58, b1, b2, b3, b4, c0] * 512)
      (by rw [hlen]; exact hrange)
  rw [hlen] at hread
  have hbread := listWrite_readback ((s.read_block_response.set 0 0).set 1 0xFE) payload 2
      (by simp [hbuf, hlen])
  rw [hlen] at hbread
  rw [sdcard_run_append [0x58, b1, b2, b3, b4, c0]
        ((0xFE :: (payload ++ [c1, c2])) ++ [0x51, b1, b2, b3, b4, c3]) s, h24]
  rw [sdcard_run_append (0xFE :: (payload ++ [c1, c2])) [0x51, b1, b2, b3, b4, c3] _, hdf, h17]
  simp only [Bool.false_eq_true, if_false, sdcard_dispatch,
             (by decide : (0x51 : Nat) &&& 0x3F = 17),
             (by decide : ¬ ((17 : Nat) = 0)), (by decide : ¬ ((17 : Nat) = 8)),
             (by decide : ¬ ((17 : Nat) = 169)), (by decide : ¬ ((17 : Nat) = 13)),
             (by decide : ¬ ((17 : Nat) = 16)), (by decide : (17 : Nat) = 17), if_true,
             ge_iff_le, harg]
  rw [if_neg hnr]
  rw [hread]
  exact ⟨hbread, by trivial, by trivial, by trivial⟩

/-- Witness for C6: writing 512 bytes of `7` to LBA 1 of the 1024-byte demo
image and reading them back. -/
theorem c6_write_read_roundtrip_witness :
    demo_card.selected = true ∧ demo_card.file = some (List.replicate 1024 0) ∧
    demo_card.rxbuf = [] ∧ demo_card.is_acmd = false ∧
    (List.replicate (512 : Nat) (7 : Nat)).length = 512 ∧
    demo_card.read_block_response.length = 516 ∧
    frame_arg [0x58, 0, 0, 0, 1, 0] * 512 + 512 ≤ (List.replicate (1024 : Nat) (0 : Nat)).length ∧
    ((((sdcard_run ([0x58, 0, 0, 0, 1, 0] ++ ((0xFE :: (List.replicate 512 7 ++ [0, 0]))
          ++ [0x51, 0, 0, 0, 1, 0])) demo_card).2.read_block_response.drop 2).take 512
        = List.replicate 512 7) ∧
     ((sdcard_run ([0x58, 0, 0, 0, 1, 0] ++ ((0xFE :: (List.replicate 512 7 ++ [0, 0]))
          ++ [0x51, 0, 0, 0, 1, 0])) demo_card).2.response
        = some (sdcard_run ([0x58, 0, 0, 0, 1, 0] ++ ((0xFE :: (List.replicate 512 7 ++ [0, 0]))
          ++ [0x51, 0, 0, 0, 1, 0])) demo_card).2.read_block_response) ∧
     ((sdcard_run ([0x58, 0, 0, 0, 1, 0] ++ ((0xFE :: (List.replicate 512 7 ++ [0, 0]))
          ++ [0x51, 0, 0, 0, 1, 0])) demo_card).2.response_length = 516) ∧
     ((sdcard_run ([0x58, 0, 0, 0, 1, 0] ++ ((0xFE :: (List.replicate 512 7 ++ [0, 0]))
          ++ [0x51, 0, 0, 0, 1, 0])) demo_card).2.response_counter = 0)) :=
  ⟨rfl, rfl, rfl, rfl, by decide, by decide, by decide,
   c6_write_read_roundtrip demo_card (List.replicate 1024 0) (List.replicate 512 7)
     0 0 0 1 0 0 0 0 rfl rfl rfl rfl (by decide) (by decide) (by decide)⟩
